import Mathlib

/-!
Verification of the BioLens consultation pipeline against its specification.

The definitions below are a shallow embedding of the TypeScript sources:

 - frontend/lib/high-risk-handler.ts   (risk assessor)
 - frontend/lib/offline-consultation.ts (offline fallback engine)
 - frontend/lib/safety-validator.ts     (response validator)
 - frontend/lib/response-processor.ts   (content sanitization)
 - frontend/lib/gemini-client.ts        (dispatcher queue and retry loop)

Strings are Lean strings; all scanning is done on the underlying character
lists so that every definition evaluates by kernel reduction.  JavaScript
numbers that the control flow compares (confidences, delays) are modelled
as rationals; wall-clock readings (Date.now) are modelled as explicit
natural-number parameters or as 0 where no claim depends on them.
A thrown JavaScript exception is modelled by an Option-valued result
(none = the call throws).
-/

namespace BioLens

/-! ## String utilities (models of the JavaScript string primitives used) -/

/-- Models JavaScript String.toLowerCase on one character.  Only the ASCII
range matters for the fixed keyword lists of the sources. -/
def lowerChar (c : Char) : Char :=
  if 'A' ≤ c ∧ c ≤ 'Z' then Char.ofNat (c.toNat + 32) else c

/-- Models JavaScript String.toLowerCase. -/
def lowerStr (s : String) : String :=
  String.mk (s.data.map lowerChar)

/-- Models JavaScript String.includes: substring containment. -/
def strContains (hay needle : String) : Bool :=
  hay.data.tails.any (fun t => needle.data.isPrefixOf t)

/-- The whitespace characters relevant to JavaScript String.trim here. -/
def isWs (c : Char) : Bool :=
  c == ' ' || c == '\t' || c == '\n' || c == '\r'

/-- Models the truthiness test "symptoms && symptoms.trim().length > 0":
trim only strips characters from the two ends, so the trimmed string is
non-empty exactly when some non-whitespace character occurs. -/
def hasNonWs (s : String) : Bool :=
  s.data.any (fun c => !(isWs c))

/-! ## Data model (api-client / consultation-engine types, as used) -/

inductive Severity
  | mild
  | moderate
  | severe
deriving DecidableEq

inductive RiskLevel
  | low
  | moderate
  | high
deriving DecidableEq

structure DetectedCondition where
  condition : String
  confidence : ℚ
  severity : Severity
  category : String
  requiresAttention : Bool
  description : String
deriving DecidableEq

structure AnalysisResult where
  predictions : List DetectedCondition
  riskLevel : RiskLevel
  overallConfidence : ℚ
deriving DecidableEq

/-- The urgency tier used by HighRiskHandler. -/
inductive Urgency
  | immediate
  | urgent
  | moderate
  | routine
deriving DecidableEq

inductive ContactType
  | emergency
  | dermatologist
  | urgent_care
deriving DecidableEq

structure EmergencyContact where
  type : ContactType
  name : String
  phone : String
  description : String
deriving DecidableEq

structure HighRiskAssessment where
  isHighRisk : Bool
  urgencyLevel : Urgency
  riskFactors : List String
  emergencyContacts : List EmergencyContact
  specialInstructions : List String
deriving DecidableEq

/-! ## HighRiskHandler (frontend/lib/high-risk-handler.ts)

The constructor's readonly sets are embedded as lists in insertion order
(JavaScript Sets iterate in insertion order). -/

def highRiskConditions : List String :=
  ["melanoma", "carcinoma", "cancer", "malignant", "tumor", "neoplasm",
   "sarcoma", "lymphoma", "metastatic", "aggressive", "invasive"]

def urgentKeywords : List String :=
  ["bleeding", "ulcerated", "rapidly growing", "changing quickly",
   "asymmetric", "irregular borders", "color variation", "diameter increase",
   "evolving", "suspicious"]

def emergencyContacts : List EmergencyContact :=
  [{ type := ContactType.emergency, name := "Emergency Services", phone := "911",
     description := "For immediate life-threatening emergencies" },
   { type := ContactType.dermatologist, name := "Dermatology Emergency",
     phone := "Contact your dermatologist immediately",
     description := "For urgent skin condition evaluation" },
   { type := ContactType.urgent_care, name := "Urgent Care Center",
     phone := "Find nearest urgent care",
     description := "For same-day medical evaluation" }]

/-- HighRiskHandler.isHighRiskCondition. -/
def isHighRiskCondition (conditionName : String) : Bool :=
  highRiskConditions.any (fun riskCondition => strContains conditionName riskCondition)

/-- HighRiskHandler.isPotentiallySerious. -/
def isPotentiallySerious (conditionName : String) : Bool :=
  ["basal cell", "squamous cell", "atypical", "dysplastic", "precancerous",
   "keratosis", "suspicious lesion"].any
    (fun c => strContains conditionName c)

/-- The keywords of analyzeSymptomRisk that set requiresImmediate. -/
def immediateSymptomKeywords : List String :=
  ["bleeding", "rapidly growing", "changing quickly"]

def abcdeFactors : List (String × String) :=
  [("asymmetr", "Asymmetry (A criteria)"),
   ("border", "Border irregularity (B criteria)"),
   ("color", "Color variation (C criteria)"),
   ("diameter", "Diameter changes (D criteria)"),
   ("evolving", "Evolution/changes (E criteria)"),
   ("changing", "Evolution/changes (E criteria)")]

def painKeywords : List String :=
  ["painful", "pain", "tender", "sore", "burning", "stinging"]

def systemicSymptoms : List String :=
  ["fever", "fatigue", "weight loss", "night sweats", "swollen lymph"]

structure SymptomRisk where
  hasUrgentSymptoms : Bool
  requiresImmediate : Bool
  urgentFactors : List String
deriving DecidableEq

/-- HighRiskHandler.analyzeSymptomRisk.  The forEach loops are embedded as
filter/map over the same lists in the same order. -/
def analyzeSymptomRisk (symptoms : String) : SymptomRisk :=
  let symptomsLower := lowerStr symptoms
  let matchedUrgent := urgentKeywords.filter (fun kw => strContains symptomsLower kw)
  let urgentFactors1 := matchedUrgent.map (fun kw => "Urgent symptom reported: " ++ kw)
  let requiresImmediate1 := matchedUrgent.any (fun kw => immediateSymptomKeywords.contains kw)
  let matchedAbcde := abcdeFactors.filter (fun p => strContains symptomsLower p.1)
  let urgentFactors2 := urgentFactors1 ++ matchedAbcde.map (fun p => "Melanoma warning sign: " ++ p.2)
  let urgentFactors3 := urgentFactors2 ++
    (if painKeywords.any (fun kw => strContains symptomsLower kw) then
      ["Pain or discomfort reported"] else [])
  let systemic := systemicSymptoms.any (fun kw => strContains symptomsLower kw)
  let urgentFactors4 := urgentFactors3 ++
    (if systemic then ["Systemic symptoms reported - requires immediate evaluation"] else [])
  { hasUrgentSymptoms := !matchedUrgent.isEmpty || !matchedAbcde.isEmpty || systemic
    requiresImmediate := requiresImmediate1 || systemic
    urgentFactors := urgentFactors4 }

/-- HighRiskHandler.generateSpecialInstructions. -/
def generateSpecialInstructions (isHighRisk : Bool) (urgencyLevel : Urgency)
    (conditionName : String) : List String :=
  let instructions :=
    if isHighRisk = true ∨ urgencyLevel = Urgency.immediate then
      ["🚨 CRITICAL: This condition requires IMMEDIATE medical attention",
       "Contact a dermatologist or emergency services without delay",
       "Do not wait for symptoms to worsen - early intervention is crucial",
       "Prepare a list of all symptoms and changes you have noticed",
       "Take high-quality photos with a ruler for scale if possible"] ++
      (if isHighRiskCondition (lowerStr conditionName) = true then
        ["This may be a potentially life-threatening condition",
         "Time is critical - seek care within 24 hours if possible"] else [])
    else if urgencyLevel = Urgency.urgent then
      ["⚠️ URGENT: Schedule medical evaluation within 1-3 days",
       "Monitor closely and seek immediate care if condition worsens",
       "Document any changes with photos and symptom tracking",
       "Contact healthcare provider to expedite appointment if possible"]
    else if urgencyLevel = Urgency.moderate then
      ["📋 MODERATE: Schedule medical evaluation within 1-2 weeks",
       "Monitor condition and seek earlier care if symptoms worsen",
       "Keep detailed records of changes and symptoms"]
    else
      ["📅 ROUTINE: Consider medical evaluation if condition persists or worsens",
       "Continue monitoring and maintain good skin care practices"]
  instructions ++
    (if strContains (lowerStr conditionName) "melanoma" = true then
      ["Protect area from sun exposure while awaiting medical care",
       "Avoid trauma to the lesion",
       "Prepare family history of skin cancer for medical appointment"] else [])

/-- HighRiskHandler.getRelevantEmergencyContacts.  The non-null assertions on
find are modelled by Option.toList (the fixed catalog always contains each
contact type, so the JavaScript find never yields undefined). -/
def getRelevantEmergencyContacts (urgencyLevel : Urgency) : List EmergencyContact :=
  match urgencyLevel with
  | Urgency.immediate => emergencyContacts
  | Urgency.urgent =>
      (emergencyContacts.find? (fun c => c.type == ContactType.dermatologist)).toList ++
      (emergencyContacts.find? (fun c => c.type == ContactType.urgent_care)).toList
  | Urgency.moderate =>
      (emergencyContacts.find? (fun c => c.type == ContactType.dermatologist)).toList
  | Urgency.routine => []

/-- The mutable local state (isHighRisk, urgencyLevel, riskFactors) of
assessHighRisk. -/
structure AssessState where
  isHighRisk : Bool
  urgencyLevel : Urgency
  riskFactors : List String
deriving DecidableEq

/-- The malignant-condition test of assessHighRisk ("Check for malignant
conditions"). -/
def primaryMalignantStep (primary : DetectedCondition) (st : AssessState) : AssessState :=
  if isHighRiskCondition (lowerStr primary.condition) = true then
    { st with
      isHighRisk := true
      urgencyLevel := Urgency.immediate
      riskFactors := st.riskFactors ++
        ["Potential malignant condition detected: " ++ primary.condition] ++
        (if primary.confidence > mkRat 7 10 then
          ["High confidence in malignant condition prediction"] else []) }
  else st

/-- The requiresAttention test of assessHighRisk. -/
def primaryAttentionStep (primary : DetectedCondition) (st : AssessState) : AssessState :=
  if primary.requiresAttention = true then
    { st with
      riskFactors := st.riskFactors ++ ["Condition flagged as requiring medical attention"]
      urgencyLevel :=
        if st.urgencyLevel = Urgency.routine then Urgency.moderate else st.urgencyLevel }
  else st

/-- The severity test of assessHighRisk. -/
def primarySeverityStep (primary : DetectedCondition) (st : AssessState) : AssessState :=
  if primary.severity = Severity.severe then
    { st with
      riskFactors := st.riskFactors ++ ["Severe condition severity detected"]
      urgencyLevel :=
        if st.urgencyLevel = Urgency.routine then Urgency.urgent else st.urgencyLevel }
  else st

/-- The confidence test of assessHighRisk ("Check confidence levels for
concerning predictions"). -/
def primaryConfidenceStep (primary : DetectedCondition) (st : AssessState) : AssessState :=
  if primary.confidence > mkRat 8 10 ∧
      isPotentiallySerious (lowerStr primary.condition) = true then
    { st with
      riskFactors := st.riskFactors ++ ["High confidence in potentially serious condition"]
      urgencyLevel :=
        if st.urgencyLevel = Urgency.routine then Urgency.moderate else st.urgencyLevel }
  else st

/-- The primary-prediction block of assessHighRisk: the four tests above in
source order. -/
def checkPrimaryPrediction (predictions : List DetectedCondition)
    (st : AssessState) : AssessState :=
  match predictions with
  | [] => st
  | primary :: _ =>
      primaryConfidenceStep primary
        (primarySeverityStep primary (primaryAttentionStep primary (primaryMalignantStep primary st)))

/-- The symptom block of assessHighRisk.  The source first appends the urgent
factors to riskFactors and then tests the (unchanged) urgency level; the two
record updates are merged here. -/
def checkSymptoms (symptoms : String) (st : AssessState) : AssessState :=
  if hasNonWs symptoms = true then
    if (analyzeSymptomRisk symptoms).hasUrgentSymptoms = true then
      if (analyzeSymptomRisk symptoms).requiresImmediate = true ∧
          st.urgencyLevel ≠ Urgency.immediate then
        { st with
          riskFactors := st.riskFactors ++ (analyzeSymptomRisk symptoms).urgentFactors
          urgencyLevel := Urgency.urgent
          isHighRisk := true }
      else
        { st with
          riskFactors := st.riskFactors ++ (analyzeSymptomRisk symptoms).urgentFactors }
    else st
  else st

/-- The overall-risk block of assessHighRisk. -/
def checkOverallRisk (analysisResult : AnalysisResult) (st : AssessState) : AssessState :=
  if analysisResult.riskLevel = RiskLevel.high then
    { isHighRisk := true
      urgencyLevel :=
        if st.urgencyLevel = Urgency.routine then Urgency.urgent else st.urgencyLevel
      riskFactors := st.riskFactors ++ ["Overall analysis indicates high risk level"] }
  else st

/-- HighRiskHandler.assessHighRisk.  The expression
"predictions[0]?.condition || 'unknown'" is modelled including the
falsiness of the empty string. -/
def assessHighRisk (predictions : List DetectedCondition) (symptoms : String)
    (analysisResult : AnalysisResult) : HighRiskAssessment :=
  let st : AssessState :=
    { isHighRisk := false, urgencyLevel := Urgency.routine, riskFactors := [] }
  let st := checkPrimaryPrediction predictions st
  let st := checkSymptoms symptoms st
  let st := checkOverallRisk analysisResult st
  let conditionName :=
    match predictions with
    | [] => "unknown"
    | p :: _ => if p.condition = "" then "unknown" else p.condition
  { isHighRisk := st.isHighRisk
    urgencyLevel := st.urgencyLevel
    riskFactors := st.riskFactors
    emergencyContacts := getRelevantEmergencyContacts st.urgencyLevel
    specialInstructions :=
      generateSpecialInstructions st.isHighRisk st.urgencyLevel conditionName }

/-! ## Concrete inputs used by witnesses and counterexamples -/

/-- The spec scenario: top prediction Melanoma, confidence 0.8, severe,
requiresAttention true. -/
def melanomaPred : DetectedCondition :=
  { condition := "Melanoma"
    confidence := mkRat 4 5
    severity := Severity.severe
    category := "Oncological"
    requiresAttention := true
    description := "Potentially malignant skin lesion" }

def melanomaResult : AnalysisResult :=
  { predictions := [melanomaPred]
    riskLevel := RiskLevel.high
    overallConfidence := mkRat 4 5 }

/-- A benign low-risk prediction. -/
def acnePred : DetectedCondition :=
  { condition := "Acne"
    confidence := mkRat 1 2
    severity := Severity.mild
    category := "Dermatological"
    requiresAttention := false
    description := "Common inflammatory skin condition" }

def acneResult : AnalysisResult :=
  { predictions := [acnePred]
    riskLevel := RiskLevel.low
    overallConfidence := mkRat 1 2 }

/-! ## Offline consultation engine (frontend/lib/offline-consultation.ts) -/

/-- The urgency enumeration of ConsultationResponse.consultation. -/
inductive OfflineUrgency
  | immediate
  | within_week
  | routine
  | monitor
deriving DecidableEq

structure Consultation where
  conditionAssessment : String
  symptomCorrelation : String
  recommendations : List String
  urgencyLevel : OfflineUrgency
  educationalInfo : String
  medicalDisclaimer : String
deriving DecidableEq

/-- ConsultationResponse.metadata; processingTime (a wall-clock difference)
is carried as a number no claim depends on. -/
structure ResponseMetadata where
  modelUsed : String
  processingTime : Nat
  confidenceScore : ℚ
  fallbackUsed : Bool
  safetyValidated : Bool
deriving DecidableEq

structure ConsultationResponse where
  consultation : Consultation
  metadata : ResponseMetadata
  emergencyContacts : Option (List EmergencyContact)
deriving DecidableEq

structure OfflineConsultationConfig where
  includeDetailedRecommendations : Bool
  includeEducationalContent : Bool
  includeEmergencyContacts : Bool
  maxRecommendations : Nat
deriving DecidableEq

/-- The defaults of the OfflineConsultationEngine constructor. -/
def defaultOfflineConfig : OfflineConsultationConfig :=
  { includeDetailedRecommendations := true
    includeEducationalContent := true
    includeEmergencyContacts := true
    maxRecommendations := 8 }

structure ProcessedSymptoms where
  keywords : List String
  severity : String
  duration : String
  location : String
deriving DecidableEq

def offlineSymptomKeywords : List String :=
  ["itch", "itchy", "scratch", "scratching",
   "pain", "painful", "hurt", "hurts", "tender",
   "burn", "burning", "sting", "stinging",
   "red", "redness", "inflamed", "swollen", "swelling",
   "dry", "flaky", "scaly", "peeling", "cracking",
   "bump", "bumps", "lump", "lumps", "raised",
   "rash", "spots", "patches", "lesion", "blisters"]

/-- OfflineConsultationEngine.processSymptoms. -/
def processSymptoms (symptoms : String) : ProcessedSymptoms :=
  if hasNonWs symptoms = false then
    { keywords := [], severity := "unknown", duration := "unknown", location := "skin" }
  else
    let symptomsLower := lowerStr symptoms
    { keywords := offlineSymptomKeywords.filter (fun kw => strContains symptomsLower kw)
      severity :=
        if ["severe", "intense", "unbearable", "extreme", "very painful",
            "excruciating"].any (fun i => strContains symptomsLower i) then "severe"
        else if ["moderate", "noticeable", "bothersome", "uncomfortable",
            "significant"].any (fun i => strContains symptomsLower i) then "moderate"
        else "mild"
      duration :=
        if strContains symptomsLower "day" || strContains symptomsLower "today" ||
            strContains symptomsLower "yesterday" then "days"
        else if strContains symptomsLower "week" = true then "weeks"
        else if strContains symptomsLower "month" = true then "months"
        else if strContains symptomsLower "year" = true then "years"
        else "unknown"
      location := "skin" }

/-- OfflineConsultationEngine.assessOfflineRiskLevel; top is predictions[0],
which the caller has checked to exist. -/
def assessOfflineRiskLevel (top : DetectedCondition)
    (analysisResult : AnalysisResult) : RiskLevel :=
  let conditionLower := lowerStr top.condition
  if strContains conditionLower "melanoma" || strContains conditionLower "carcinoma" ||
      strContains conditionLower "cancer" then
    RiskLevel.high
  else
    let riskLevel := analysisResult.riskLevel
    let riskLevel :=
      if top.requiresAttention = true ∧ analysisResult.overallConfidence > mkRat 7 10 then
        (if riskLevel = RiskLevel.low then RiskLevel.moderate else riskLevel)
      else riskLevel
    if top.severity = Severity.severe then
      (if riskLevel = RiskLevel.low then RiskLevel.moderate else riskLevel)
    else riskLevel

/-- OfflineConsultationEngine.determineOfflineUrgencyLevel; top is
predictions[0]. -/
def determineOfflineUrgencyLevel (top : DetectedCondition)
    (riskLevel : RiskLevel) : OfflineUrgency :=
  let conditionLower := lowerStr top.condition
  if riskLevel = RiskLevel.high ∨ strContains conditionLower "melanoma" = true ∨
      strContains conditionLower "carcinoma" = true then
    OfflineUrgency.immediate
  else if top.requiresAttention = true ∨ riskLevel = RiskLevel.moderate then
    OfflineUrgency.within_week
  else if riskLevel = RiskLevel.low ∧ top.requiresAttention = false then
    OfflineUrgency.monitor
  else
    OfflineUrgency.routine

/-- OfflineConsultationEngine.getOfflineEmergencyContacts. -/
def getOfflineEmergencyContacts (riskLevel : RiskLevel) : List EmergencyContact :=
  (if riskLevel = RiskLevel.high then
    [{ type := ContactType.emergency
       name := "Emergency Services"
       phone := "911"
       description := "For immediate medical emergencies" }]
   else []) ++
  [{ type := ContactType.dermatologist
     name := "Dermatologist"
     phone := "Contact your healthcare provider"
     description := "Specialized skin condition care and diagnosis" }] ++
  (if riskLevel ≠ RiskLevel.low then
    [{ type := ContactType.urgent_care
       name := "Urgent Care Center"
       phone := "Find local urgent care"
       description := "For non-emergency but urgent medical needs" }]
   else [])

/-- OfflineConsultationEngine.getOfflineMedicalDisclaimer. -/
def getOfflineMedicalDisclaimer : String :=
  "⚠️ **COMPREHENSIVE MEDICAL DISCLAIMER**: This offline AI-powered analysis is for informational and educational purposes only and is NOT a substitute for professional medical advice, diagnosis, or treatment. The analysis is based on visual pattern recognition and should never be used for self-diagnosis or treatment decisions. This system operates independently without external AI consultation and provides enhanced analysis based on established medical knowledge patterns. Always consult a qualified healthcare provider, dermatologist, or medical professional for any health concerns, skin changes, or before making any medical decisions. If you have a medical emergency or urgent symptoms, call emergency services immediately. For skin conditions showing rapid changes, unusual symptoms, or causing significant concern, seek prompt medical attention. This analysis should be shared with your healthcare provider as supplementary information only."

/-- The string form of the severity enumeration, as interpolated by the
source templates. -/
def severityStr : Severity → String
  | Severity.mild => "mild"
  | Severity.moderate => "moderate"
  | Severity.severe => "severe"

/-- Models Number.prototype.toFixed(1) for the rational values used here:
round to one decimal place (ties away from zero suffices for the
nonnegative confidences involved) and print as int.digit. -/
def toFixed1 (q : ℚ) : String :=
  let n : Int := ⌊q * 10 + mkRat 1 2⌋
  toString (n / 10) ++ "." ++ toString (n % 10)

/-- OfflineConsultationEngine.generateOfflineAssessment; top is
predictions[0]. -/
def generateOfflineAssessment (top : DetectedCondition)
    (analysisResult : AnalysisResult) (processedSymptoms : ProcessedSymptoms) : String :=
  let confidence := toFixed1 (analysisResult.overallConfidence * 100)
  let a := "**Comprehensive Offline Analysis**\n\n"
  let a := a ++ "Based on advanced image analysis, the most likely condition is **" ++
    top.condition ++ "** with " ++ confidence ++ "% confidence. "
  let a := a ++ "This condition is classified as **" ++ severityStr top.severity ++
    " severity** in the **" ++ top.category ++ "** category. "
  let a := a ++
    (if top.requiresAttention = true then
      "⚠️ This condition typically **requires medical attention** for proper evaluation and treatment. "
    else
      "This condition may be manageable with appropriate care and monitoring. ")
  let a := a ++
    (if analysisResult.overallConfidence > mkRat 8 10 then
      "The **high confidence level** (" ++ confidence ++
        "%) suggests strong visual pattern matching with known characteristics of this condition. "
    else if analysisResult.overallConfidence > mkRat 6 10 then
      "The **moderate-high confidence level** (" ++ confidence ++
        "%) indicates good pattern matching, though professional confirmation is recommended. "
    else if analysisResult.overallConfidence > mkRat 4 10 then
      "The **moderate confidence level** (" ++ confidence ++
        "%) suggests possible pattern matching, but professional evaluation is strongly recommended for definitive assessment. "
    else
      "The **lower confidence level** (" ++ confidence ++
        "%) indicates uncertainty in the analysis. Professional medical evaluation is essential for accurate diagnosis. ")
  let a := a ++
    (if analysisResult.predictions.length > 1 then
      "\n\n**Alternative possibilities to consider:** " ++
        String.intercalate ", "
          (((analysisResult.predictions.drop 1).take 3).map
            (fun pred => pred.condition ++ " (" ++ toFixed1 (pred.confidence * 100) ++ "%)")) ++
        ". These alternatives should be discussed with a healthcare provider for comprehensive evaluation. "
    else "")
  let a := a ++
    (if processedSymptoms.keywords.length > 0 then
      "\n\n**Symptom Integration:** Your reported symptoms (" ++
        String.intercalate ", " processedSymptoms.keywords ++
        ") have been considered in this analysis and may provide additional diagnostic context. "
    else "")
  a ++
    (if analysisResult.riskLevel = RiskLevel.high then
      "\n\n🚨 **HIGH RISK ASSESSMENT:** This condition requires immediate medical attention. Do not delay seeking professional care. "
    else if analysisResult.riskLevel = RiskLevel.moderate then
      "\n\n⚠️ **MODERATE RISK ASSESSMENT:** This condition should be evaluated by a healthcare provider within a reasonable timeframe. "
    else
      "\n\n✅ **LOW RISK ASSESSMENT:** While this appears to be a lower-risk condition, monitoring and appropriate care are still recommended. ")

/-- OfflineConsultationEngine.generateOfflineSymptomCorrelation; top is
predictions[0]. -/
def generateOfflineSymptomCorrelation (symptoms : String) (top : DetectedCondition)
    (processedSymptoms : ProcessedSymptoms) : String :=
  if hasNonWs symptoms = false then
    "**No symptoms provided** - Analysis was performed based solely on visual characteristics. Adding symptom information could enhance the assessment accuracy and provide more personalized recommendations."
  else
    let conditionLower := lowerStr top.condition
    let kws := processedSymptoms.keywords
    let c := "**Symptom-Condition Correlation Analysis**\n\n"
    let c := c ++ "Your reported symptoms have been analyzed in relation to the detected condition (**" ++
      top.condition ++ "**). "
    let c := c ++
      (if kws.length > 0 then
        "**Key symptoms identified:** " ++ String.intercalate ", " kws ++ ". " ++
        (if strContains conditionLower "eczema" = true then
          (if kws.contains "itch" || kws.contains "itchy" then
            "✅ **Strong correlation:** Itching is a hallmark symptom of eczema and strongly supports this diagnosis. "
          else "") ++
          (if kws.contains "dry" || kws.contains "flaky" then
            "✅ **Supporting evidence:** Dry, flaky skin is commonly associated with eczema. "
          else "")
        else if strContains conditionLower "psoriasis" = true then
          (if kws.contains "scaly" || kws.contains "flaky" then
            "✅ **Strong correlation:** Scaling is a characteristic feature of psoriasis. "
          else "") ++
          (if kws.contains "red" || kws.contains "inflamed" then
            "✅ **Supporting evidence:** Redness and inflammation are typical of psoriatic lesions. "
          else "")
        else if strContains conditionLower "fungal" = true then
          (if kws.contains "itch" || kws.contains "burn" then
            "✅ **Strong correlation:** Itching and burning are common symptoms of fungal infections. "
          else "")
        else if strContains conditionLower "acne" = true then
          (if kws.contains "pain" || kws.contains "tender" then
            "✅ **Supporting evidence:** Pain and tenderness can occur with inflammatory acne. "
          else "")
        else if strContains conditionLower "melanoma" || strContains conditionLower "carcinoma" then
          "⚠️ **Critical note:** Any changes in size, color, texture, or new symptoms in suspicious lesions require immediate medical evaluation. "
        else "")
      else "")
    let c := c ++
      (if processedSymptoms.severity ≠ "unknown" then
        "\n\n**Symptom severity assessment:** " ++ processedSymptoms.severity ++ ". " ++
        (if processedSymptoms.severity = "severe" then
          "The severe nature of your symptoms increases the urgency for professional medical evaluation. "
        else if processedSymptoms.severity = "moderate" then
          "Moderate symptoms suggest the condition is having a noticeable impact and warrants medical attention. "
        else "")
      else "")
    let c := c ++
      (if processedSymptoms.duration ≠ "unknown" then
        "**Duration context:** Symptoms lasting " ++ processedSymptoms.duration ++
        " provide important diagnostic information. " ++
        (if processedSymptoms.duration = "days" then
          "Recent onset may suggest acute conditions or flare-ups of chronic conditions. "
        else if processedSymptoms.duration = "weeks" ∨ processedSymptoms.duration = "months" then
          "Persistent symptoms over this timeframe indicate the need for professional evaluation and management. "
        else if processedSymptoms.duration = "years" then
          "Long-standing symptoms suggest a chronic condition that may benefit from ongoing medical management. "
        else "")
      else "")
    c ++ "\n\n**Recommendation:** This symptom analysis enhances the visual assessment and should be shared with your healthcare provider for comprehensive evaluation."

/-- OfflineConsultationEngine.generateOfflineRecommendations; top is
predictions[0]. -/
def generateOfflineRecommendations (config : OfflineConsultationConfig)
    (top : DetectedCondition) (symptoms : String) (riskLevel : RiskLevel) : List String :=
  let conditionLower := lowerStr top.condition
  let symptomsLower := lowerStr symptoms
  let priority :=
    if riskLevel = RiskLevel.high then
      ["🚨 **URGENT PRIORITY:** Seek immediate medical attention from a dermatologist or emergency care",
       "📞 **Contact healthcare provider today** - do not delay for high-risk conditions",
       "🏥 **Consider emergency care** if symptoms worsen rapidly or you develop systemic symptoms",
       "📋 **Prepare for medical visit:** Document all symptoms, changes, and timeline"]
    else if riskLevel = RiskLevel.moderate then
      ["📅 **Schedule medical appointment** within 1-2 weeks with healthcare provider or dermatologist",
       "👀 **Monitor closely** and seek immediate care if condition worsens or spreads",
       "📸 **Document changes** with photos and symptom tracking for medical consultation",
       "⚠️ **Seek immediate care if:** rapid changes, severe pain, fever, or systemic symptoms develop"]
    else
      ["🩺 **Consider medical consultation** if symptoms persist beyond 2-3 weeks or worsen",
       "📊 **Continue monitoring** and maintain good skin care practices",
       "📝 **Track symptoms** and any changes for future medical reference"]
  let conditionSpecific :=
    if strContains conditionLower "eczema" = true then
      ["🧴 **Moisturize regularly** with fragrance-free, hypoallergenic moisturizers (2-3 times daily)",
       "🧼 **Use gentle products:** mild, pH-balanced cleansers and avoid harsh soaps",
       "🚫 **Identify triggers:** avoid known irritants (certain fabrics, fragrances, stress)",
       "❄️ **For acute symptoms:** consider cool compresses and over-the-counter hydrocortisone cream",
       "🌡️ **Temperature control:** use lukewarm water for bathing and avoid hot showers"]
    else if strContains conditionLower "psoriasis" = true then
      ["🧴 **Heavy moisturizing:** apply thick creams or ointments multiple times daily",
       "☀️ **Controlled sun exposure:** limited sunlight may help, but always use sunscreen",
       "🧘 **Stress management:** practice stress reduction as it can trigger flare-ups",
       "🧴 **Scalp care:** use medicated shampoos if scalp is affected",
       "💊 **Consider supplements:** discuss omega-3 fatty acids with healthcare provider"]
    else if strContains conditionLower "fungal" = true then
      ["🌬️ **Keep area dry:** ensure good ventilation and avoid moisture buildup",
       "💊 **Antifungal treatment:** consider over-the-counter antifungal creams or powders",
       "🧺 **Hygiene measures:** wash clothing/bedding in hot water (140°F+) and dry thoroughly",
       "🚫 **Avoid sharing:** don\x27t share towels, shoes, or personal items",
       "👟 **Footwear:** wear breathable shoes and change socks daily if feet are affected"]
    else if strContains conditionLower "acne" = true then
      ["🧼 **Gentle cleansing:** use non-comedogenic, gentle cleansers twice daily",
       "🚫 **Avoid over-washing:** excessive cleansing can worsen inflammation",
       "💊 **OTC treatments:** consider salicylic acid or benzoyl peroxide products",
       "🚫 **Don\x27t pick:** avoid squeezing or picking lesions to prevent scarring",
       "🧴 **Non-comedogenic products:** use oil-free, non-pore-clogging skincare and makeup"]
    else if strContains conditionLower "melanoma" || strContains conditionLower "carcinoma" then
      ["🚨 **CRITICAL:** Contact dermatologist immediately for urgent evaluation",
       "☀️ **Sun protection:** protect area from UV exposure while awaiting medical care",
       "📏 **Document thoroughly:** take high-quality photos with ruler for scale reference",
       "📋 **Prepare medical history:** list any changes in size, color, texture, or symptoms",
       "⏰ **Don\x27t delay:** skin cancers require prompt professional evaluation and treatment"]
    else if strContains conditionLower "dermatitis" = true then
      ["🧴 **Gentle skin care:** use hypoallergenic, fragrance-free products",
       "🚫 **Avoid irritants:** identify and eliminate potential triggers",
       "❄️ **Cool compresses:** apply for 10-15 minutes to reduce inflammation and itching",
       "💊 **Anti-inflammatory:** consider over-the-counter hydrocortisone for short-term use"]
    else []
  let general :=
    if config.includeDetailedRecommendations = true then
      ["📸 **Photo documentation:** take weekly photos in good lighting to track changes",
       "☀️ **Daily sun protection:** use broad-spectrum SPF 30+ sunscreen, even indoors",
       "💧 **Stay hydrated:** maintain good hydration for overall skin health",
       "🥗 **Healthy diet:** consider anti-inflammatory foods and discuss supplements with provider",
       "😴 **Quality sleep:** adequate rest supports skin healing and immune function"]
    else []
  let symptomSpecific :=
    if symptoms ≠ "" then
      (if strContains symptomsLower "pain" = true then
        ["💊 **Pain management:** consider appropriate over-the-counter pain relief and cool compresses"]
      else []) ++
      (if strContains symptomsLower "itch" = true then
        ["🧊 **Itch relief:** use cool compresses, antihistamines, or anti-itch creams as appropriate"]
      else []) ++
      (if strContains symptomsLower "burn" = true then
        ["❄️ **Burning sensation:** apply cool, damp cloths and avoid further irritation"]
      else [])
    else []
  (priority ++ conditionSpecific ++ general ++ symptomSpecific).take config.maxRecommendations

/-- OfflineConsultationEngine.generateOfflineEducationalInfo; condition is
predictions[0].  The "description || default" expressions model the
falsiness of the empty string. -/
def generateOfflineEducationalInfo (config : OfflineConsultationConfig)
    (condition : DetectedCondition) (analysisResult : AnalysisResult) : String :=
  if config.includeEducationalContent = false then
    (if condition.description = "" then
      "Educational information not available in current configuration."
    else condition.description)
  else
    let info := "**About " ++ condition.condition ++ "**\n\n"
    let info := info ++
      (if condition.description = "" then
        "This is a skin condition that requires professional medical evaluation for proper diagnosis and treatment."
      else condition.description)
    let info := info ++
      (if condition.category = "Dermatological" then
        "\n\n**Dermatological Conditions:** These skin conditions often involve inflammation, irritation, or structural changes in the skin. They typically benefit from consistent skincare routines, appropriate topical treatments, and professional medical guidance. Many dermatological conditions are chronic and require ongoing management rather than one-time treatment."
      else if condition.category = "Infectious" then
        "\n\n**Infectious Conditions:** These are caused by microorganisms such as bacteria, fungi, or viruses. They are often treatable with appropriate antimicrobial medications when properly diagnosed. Early treatment typically leads to better outcomes and prevents spread to other areas or individuals."
      else if condition.category = "Autoimmune" then
        "\n\n**Autoimmune Conditions:** These occur when the immune system mistakenly attacks healthy skin tissue. They are typically chronic conditions that can be effectively managed with proper medical care, lifestyle modifications, and sometimes immunosuppressive treatments. Stress management and trigger avoidance are often important components of treatment."
      else if condition.category = "Oncological" then
        "\n\n**⚠️ Oncological Conditions:** These involve abnormal cell growth that may be benign or malignant. Early detection and treatment are crucial for the best outcomes. Regular skin examinations and prompt evaluation of suspicious lesions are essential preventive measures."
      else if condition.category = "Benign" then
        "\n\n**Benign Conditions:** These are non-cancerous growths or changes that typically don\x27t pose serious health risks. However, they may still benefit from monitoring and sometimes treatment for cosmetic or comfort reasons."
      else "")
    let info := info ++
      (if condition.severity = Severity.severe then
        "\n\n**Severity Level - Severe:** This condition classification indicates significant impact on skin health and typically requires prompt medical attention and potentially aggressive treatment approaches."
      else if condition.severity = Severity.moderate then
        "\n\n**Severity Level - Moderate:** This condition may cause noticeable symptoms and discomfort, typically benefiting from medical evaluation and appropriate treatment to prevent progression."
      else
        "\n\n**Severity Level - Mild:** While less severe, this condition still warrants attention and appropriate care to prevent worsening and maintain skin health.")
    let info := info ++
      (if analysisResult.overallConfidence > mkRat 8 10 then
        "\n\n**Analysis Confidence:** The high confidence in this analysis suggests strong visual pattern matching. However, definitive diagnosis requires professional medical evaluation, as similar-appearing conditions can have different underlying causes and treatments."
      else if analysisResult.overallConfidence < mkRat 5 10 then
        "\n\n**Analysis Confidence:** The moderate confidence level indicates some uncertainty in the visual analysis. Professional medical evaluation is particularly important for accurate diagnosis and appropriate treatment planning."
      else "")
    info ++ "\n\n**General Skin Health:** Maintaining good skin health involves regular cleansing with gentle products, adequate moisturization, sun protection, stress management, and prompt attention to changes or new symptoms. Regular self-examinations and professional skin checks are important preventive measures."

/-- OfflineConsultationEngine.generateMinimalConsultation.  The function
reads predictions[0].condition unconditionally: on an empty predictions list
the JavaScript member access on undefined throws a TypeError, modelled as
none. -/
def generateMinimalConsultation (analysisResult : AnalysisResult) :
    Option ConsultationResponse :=
  match analysisResult.predictions with
  | [] => none
  | topPrediction :: _ =>
    some
      { consultation :=
          { conditionAssessment := "Analysis detected: " ++ topPrediction.condition ++
              ". Professional medical evaluation is recommended for proper diagnosis and treatment."
            symptomCorrelation := "Symptom analysis unavailable due to system limitations."
            recommendations :=
              ["Consult a healthcare provider or dermatologist",
               "Monitor the condition for any changes",
               "Take photos to track progression",
               "Seek immediate care if condition worsens rapidly"]
            urgencyLevel :=
              if topPrediction.requiresAttention = true then OfflineUrgency.within_week
              else OfflineUrgency.routine
            educationalInfo :=
              if topPrediction.description = "" then
                "Professional medical evaluation recommended."
              else topPrediction.description
            medicalDisclaimer := getOfflineMedicalDisclaimer }
        metadata :=
          { modelUsed := "Minimal Offline Consultation"
            processingTime := 0
            confidenceScore := analysisResult.overallConfidence
            fallbackUsed := true
            safetyValidated := true }
        emergencyContacts := none }

/-- OfflineConsultationEngine.generateOfflineConsultation.  The try block
throws only at the input-validation guard (empty predictions); the catch
then calls generateMinimalConsultation, whose own TypeError escapes the
catch uncaught, so the overall result is none exactly when predictions is
empty.  No external call is made; processingTime is modelled as 0. -/
def generateOfflineConsultation (config : OfflineConsultationConfig)
    (analysisResult : AnalysisResult) (symptoms : String) :
    Option ConsultationResponse :=
  match analysisResult.predictions with
  | [] => generateMinimalConsultation analysisResult
  | topPrediction :: _ =>
    let riskLevel := assessOfflineRiskLevel topPrediction analysisResult
    let processedSymptoms := processSymptoms symptoms
    some
      { consultation :=
          { conditionAssessment :=
              generateOfflineAssessment topPrediction analysisResult processedSymptoms
            symptomCorrelation :=
              generateOfflineSymptomCorrelation symptoms topPrediction processedSymptoms
            recommendations :=
              generateOfflineRecommendations config topPrediction symptoms riskLevel
            urgencyLevel := determineOfflineUrgencyLevel topPrediction riskLevel
            educationalInfo :=
              generateOfflineEducationalInfo config topPrediction analysisResult
            medicalDisclaimer := getOfflineMedicalDisclaimer }
        metadata :=
          { modelUsed := "Offline Consultation Engine v2.0"
            processingTime := 0
            confidenceScore := analysisResult.overallConfidence
            fallbackUsed := true
            safetyValidated := true }
        emergencyContacts :=
          if config.includeEmergencyContacts = true then
            some (getOfflineEmergencyContacts riskLevel)
          else none }

/-- The malformed input of C3: an AnalysisResult whose predictions list is
empty. -/
def emptyAnalysisResult : AnalysisResult :=
  { predictions := [], riskLevel := RiskLevel.low, overallConfidence := 0 }

/-! ## Safety validator (frontend/lib/safety-validator.ts) -/

/-- SafetyValidator.prohibitedTerms. -/
def prohibitedTerms : List String :=
  ["i diagnose", "you have", "definitely", "certainly is", "confirmed diagnosis",
   "you are diagnosed with", "this is definitely", "without doubt", "conclusively",
   "positively identified", "medical diagnosis", "final diagnosis",
   "take this medication", "prescription", "prescribe", "dosage", "mg", "ml",
   "stop taking", "increase dose", "decrease dose", "medication schedule",
   "drug interaction", "pharmaceutical", "rx", "prescription drug",
   "surgery is required", "you need surgery", "immediate surgery",
   "stop all medications", "ignore your doctor", "don\x27t see a doctor",
   "cancel appointment", "avoid medical care", "self-treat",
   "guaranteed cure", "will definitely work", "never fails",
   "always effective", "100% certain", "no need to worry",
   "completely safe", "risk-free", "impossible to be wrong"]

/-- SafetyValidator.diagnosticLanguage. -/
def diagnosticLanguage : List String :=
  ["diagnosis", "diagnosed", "diagnose", "medical condition is",
   "you suffer from", "afflicted with", "disease is", "illness is",
   "pathology shows", "clinical diagnosis", "medical determination"]

/-- SafetyValidator.requiredDisclaimerTerms. -/
def requiredDisclaimerTerms : List String :=
  ["not a substitute", "professional medical advice", "consult", "healthcare provider",
   "medical professional", "qualified", "emergency", "informational purposes",
   "not intended", "seek medical attention", "healthcare consultation"]

/-- The three critical phrases of ensureDisclaimersPresent. -/
def criticalDisclaimerPhrases : List String :=
  ["not a substitute for professional medical advice",
   "consult a healthcare provider",
   "informational purposes only"]

/-- SafetyValidator.emergencyIndicators. -/
def svEmergencyIndicators : List String :=
  ["bleeding", "rapid growth", "sudden change", "severe pain",
   "difficulty breathing", "fever", "infection signs", "pus",
   "red streaking", "swollen lymph nodes", "systemic symptoms",
   "neurological symptoms", "vision changes", "consciousness"]

/-- SafetyValidator.highRiskConditions (in Set insertion order). -/
def svHighRiskConditions : List String :=
  ["melanoma", "carcinoma", "cancer", "malignant", "tumor",
   "neoplasm", "sarcoma", "lymphoma", "metastatic", "aggressive",
   "invasive", "basal cell carcinoma", "squamous cell carcinoma"]

def urgencyKeywordsImmediate : List String :=
  ["immediate", "emergency", "urgent", "critical", "asap", "now",
   "right away", "without delay", "immediately", "emergent"]

def urgencyKeywordsUrgent : List String :=
  ["soon", "promptly", "within days", "this week", "quickly",
   "expedited", "priority", "timely", "rapid"]

def urgencyKeywordsModerate : List String :=
  ["within a week", "few days", "scheduled", "planned",
   "routine appointment", "regular care", "follow-up"]

def urgencyKeywordsRoutine : List String :=
  ["routine", "regular", "convenience", "when possible",
   "at your leisure", "standard care", "maintenance"]

structure ProhibitedCheck where
  valid : Bool
  violations : List String
deriving DecidableEq

/-- The violation messages pushed by checkForProhibitedContent, in term-list
order. -/
def prohibitedViolations (text : String) : List String :=
  (prohibitedTerms.filter (fun t => strContains (lowerStr text) t)).map
    (fun t => "Contains prohibited medical language: \"" ++ t ++ "\"")

/-- SafetyValidator.checkForProhibitedContent. -/
def checkForProhibitedContent (text : String) : ProhibitedCheck :=
  { valid := (prohibitedViolations text).isEmpty
    violations := prohibitedViolations text }

/-- SafetyValidator.ensureDisclaimersPresent: at least four of the required
disclaimer terms and at least one critical phrase. -/
def ensureDisclaimersPresent (text : String) : Bool :=
  decide (4 ≤ (requiredDisclaimerTerms.filter
      (fun t => strContains (lowerStr text) t)).length) &&
    criticalDisclaimerPhrases.any (fun p => strContains (lowerStr text) p)

/-- SafetyValidator.checkDiagnosticLanguage (the violations list). -/
def checkDiagnosticLanguage (text : String) : List String :=
  (diagnosticLanguage.filter (fun t => strContains (lowerStr text) t)).map
    (fun t => "Contains inappropriate diagnostic language: \"" ++ t ++ "\"")

structure CertaintyCheck where
  valid : Bool
  issues : List String
deriving DecidableEq

/-- SafetyValidator.validateCertaintyLanguage. -/
def validateCertaintyLanguage (text : String) : CertaintyCheck :=
  let content := lowerStr text
  let hasUncertaintyLanguage :=
    ["might", "could", "may", "possibly", "appears", "suggests",
     "likely", "potential", "probable", "seems", "indicates"].any
      (fun i => strContains content i)
  let hasOverCertainty :=
    ["absolutely", "definitely", "certainly", "without doubt",
     "guaranteed", "always", "never", "100%"].any
      (fun i => strContains content i)
  { valid := hasUncertaintyLanguage && !hasOverCertainty
    issues :=
      (if hasUncertaintyLanguage = false then
        ["Response lacks appropriate uncertainty language for medical context"] else []) ++
      (if hasOverCertainty = true then
        ["Response contains inappropriate certainty language for medical context"] else []) }

structure UrgencyAssessment where
  level : Urgency
  factors : List String
  timeframe : String
  emergencyIndicators : List String
deriving DecidableEq

/-- SafetyValidator.assessUrgencyLevel (called by validateResponse without
the optional riskFactors argument). -/
def assessUrgencyLevel (response : String) : UrgencyAssessment :=
  let content := lowerStr response
  let matchedEmergency := svEmergencyIndicators.filter (fun i => strContains content i)
  let matchedHighRisk := svHighRiskConditions.filter (fun c => strContains content c)
  let factors0 :=
    matchedEmergency.map (fun i => "Emergency indicator detected: " ++ i) ++
    matchedHighRisk.map (fun c => "High-risk condition mentioned: " ++ c)
  let level0 := if matchedHighRisk.isEmpty then Urgency.routine else Urgency.urgent
  let step :=
    if urgencyKeywordsImmediate.any (fun k => strContains content k) then
      (Urgency.immediate, "Seek care immediately",
       factors0 ++ ["Immediate indicators: " ++ String.intercalate ", "
         (urgencyKeywordsImmediate.filter (fun k => strContains content k))])
    else if urgencyKeywordsUrgent.any (fun k => strContains content k) then
      ((if level0 = Urgency.routine then Urgency.urgent else level0),
       "Seek care within 1-3 days",
       factors0 ++ ["Urgent indicators: " ++ String.intercalate ", "
         (urgencyKeywordsUrgent.filter (fun k => strContains content k))])
    else if urgencyKeywordsModerate.any (fun k => strContains content k) then
      ((if level0 = Urgency.routine then Urgency.moderate else level0),
       "Schedule care within 1-2 weeks",
       factors0 ++ ["Moderate indicators: " ++ String.intercalate ", "
         (urgencyKeywordsModerate.filter (fun k => strContains content k))])
    else if urgencyKeywordsRoutine.any (fun k => strContains content k) then
      (level0, "No specific timeframe indicated",
       if level0 = Urgency.routine ∧ factors0 = [] then
         factors0 ++ ["Routine indicators: " ++ String.intercalate ", "
           (urgencyKeywordsRoutine.filter (fun k => strContains content k))]
       else factors0)
    else (level0, "No specific timeframe indicated", factors0)
  { level := if matchedEmergency.isEmpty then step.1 else Urgency.immediate
    factors := step.2.2
    timeframe := if matchedEmergency.isEmpty then step.2.1 else "Seek emergency care immediately"
    emergencyIndicators := matchedEmergency }

/-- The validator-internal risk level (low/medium/high). -/
inductive SVRiskLevel
  | low
  | medium
  | high
deriving DecidableEq

/-- SafetyValidator.determineOverallRiskLevel. -/
def determineOverallRiskLevel (response : String)
    (urgencyAssessment : UrgencyAssessment) : SVRiskLevel :=
  if urgencyAssessment.level = Urgency.immediate ∨
      urgencyAssessment.emergencyIndicators ≠ [] then SVRiskLevel.high
  else if svHighRiskConditions.any (fun c => strContains (lowerStr response) c) then
    SVRiskLevel.high
  else if urgencyAssessment.level = Urgency.urgent ∨
      urgencyAssessment.factors.length > 2 then SVRiskLevel.medium
  else if (checkForProhibitedContent response).valid = false then SVRiskLevel.medium
  else if ensureDisclaimersPresent response = false then SVRiskLevel.medium
  else SVRiskLevel.low

/-- SafetyValidator.shouldIncludeEmergencyContacts (the response argument is
unused in the source body). -/
def shouldIncludeEmergencyContacts (_response : String)
    (urgencyAssessment : UrgencyAssessment) (riskLevel : SVRiskLevel) : Bool :=
  if riskLevel = SVRiskLevel.high ∨ urgencyAssessment.level = Urgency.immediate then true
  else if urgencyAssessment.level = Urgency.urgent then true
  else if urgencyAssessment.emergencyIndicators ≠ [] then true
  else if riskLevel = SVRiskLevel.medium ∧ urgencyAssessment.factors.length > 1 then true
  else false

structure SafetyCheck where
  valid : Bool
  issues : List String
  warnings : List String
  riskLevel : SVRiskLevel
  requiresDisclaimer : Bool
  requiresEmergencyContacts : Bool
  urgencyAssessment : UrgencyAssessment
deriving DecidableEq

/-- The issues list accumulated by validateResponse, in push order:
prohibited-content violations, a disclaimer issue, diagnostic-language
violations. -/
def validateIssues (response : String) : List String :=
  (if (checkForProhibitedContent response).valid = false then
    (checkForProhibitedContent response).violations else []) ++
  (if ensureDisclaimersPresent response = false then
    ["Required medical disclaimers are missing or insufficient"] else []) ++
  (if checkDiagnosticLanguage response ≠ [] then checkDiagnosticLanguage response else [])

/-- SafetyValidator.validateResponse. -/
def validateResponse (response : String) : SafetyCheck :=
  { valid := (validateIssues response).isEmpty
    issues := validateIssues response
    warnings :=
      if (validateCertaintyLanguage response).valid = false then
        (validateCertaintyLanguage response).issues else []
    riskLevel := determineOverallRiskLevel response (assessUrgencyLevel response)
    requiresDisclaimer :=
      !(ensureDisclaimersPresent response) ||
        decide (determineOverallRiskLevel response (assessUrgencyLevel response) ≠ SVRiskLevel.low)
    requiresEmergencyContacts :=
      shouldIncludeEmergencyContacts response (assessUrgencyLevel response)
        (determineOverallRiskLevel response (assessUrgencyLevel response))
    urgencyAssessment := assessUrgencyLevel response }

/-! ## Content sanitization (frontend/lib/response-processor.ts) -/

/-- ResponseProcessor.prohibitedTerms (the processor keeps its own, shorter
list). -/
def processorProhibitedTerms : List String :=
  ["i diagnose", "you have", "definitely", "certainly is", "confirmed diagnosis",
   "you are diagnosed with", "this is definitely", "without doubt",
   "take this medication", "prescription", "prescribe", "dosage",
   "stop taking", "increase dose", "decrease dose", "medication schedule",
   "surgery is required", "you need surgery", "immediate surgery",
   "stop all medications", "ignore your doctor", "don\x27t see a doctor",
   "guaranteed cure", "will definitely work", "never fails",
   "always effective", "100% certain", "no need to worry"]

/-- The replacement chosen by sanitizeContent for a matched term.  The
replacement callback inspects match.toLowerCase(), which for these literal
case-insensitive patterns equals the term itself. -/
def replFor (term : String) : String :=
  if strContains term "diagnose" = true then "suggest the possibility of"
  else if strContains term "definitely" = true then "likely"
  else if strContains term "prescription" = true then
    "professional medical evaluation for treatment options"
  else "professional medical consultation recommended"

/-- The tag-skipping scan of String.replace(/<[^>]*>/g, ''): with inTag set
the characters up to and including the next '>' are dropped. -/
def stripAux : Bool → List Char → List Char
  | _, [] => []
  | true, c :: rest => if c = '>' then stripAux false rest else stripAux true rest
  | false, c :: rest =>
    if c = '<' && rest.contains '>' then stripAux true rest
    else c :: stripAux false rest

/-- Models String.replace(/<[^>]*>/g, ''): removes each run from a '<'
through the first following '>'; a '<' with no later '>' cannot start a
match and is kept verbatim. -/
def stripTags (l : List Char) : List Char :=
  stripAux false l

/-- Models String.replace(/\s+/g, ' '): each maximal whitespace run becomes
one space. -/
def collapseWs : List Char → List Char
  | [] => []
  | [c] => if isWs c = true then [' '] else [c]
  | c1 :: c2 :: rest =>
    if isWs c1 = true then
      if isWs c2 = true then collapseWs (c2 :: rest)
      else ' ' :: collapseWs (c2 :: rest)
    else c1 :: collapseWs (c2 :: rest)

/-- Models String.trim (on the whitespace characters relevant here). -/
def trimWs (l : List Char) : List Char :=
  ((l.dropWhile (fun c => isWs c)).reverse.dropWhile (fun c => isWs c)).reverse

/-- The scan of String.replace(new RegExp(term, 'gi'), repl) for a literal
lowercase term: a positive skip count drops characters belonging to an
already-replaced match; at skip 0, a case-insensitive match of t at the head
emits r and skips the rest of the matched region. -/
def replAux (t r : List Char) : Nat → List Char → List Char
  | _, [] => []
  | Nat.succ k, _ :: rest => replAux t r k rest
  | 0, c :: rest =>
    if t.isPrefixOf ((c :: rest).map lowerChar) = true then
      r ++ replAux t r (t.length - 1) rest
    else c :: replAux t r 0 rest

/-- Models String.replace(new RegExp(term, 'gi'), repl) for a literal term
with no regex metacharacters: leftmost non-overlapping case-insensitive
occurrences are replaced and scanning resumes after the replaced region. -/
def replaceTermCI (t r : List Char) (l : List Char) : List Char :=
  replAux t r 0 l

/-- ResponseProcessor.sanitizeContent: strip markup, collapse whitespace,
trim, then replace each prohibited term (the terms are all lowercase, so
the case-insensitive pattern matches wherever the lowercased text contains
the term). -/
def sanitizeContent (content : String) : String :=
  if content = "" then ""
  else
    String.mk (processorProhibitedTerms.foldl
      (fun acc term => replaceTermCI term.data (replFor term).data acc)
      (trimWs (collapseWs (stripTags content.data))))

/-- The response text of the C4 scenario. -/
def c4ExampleText : String :=
  "I diagnose you with eczema. Take this prescription medication."

/-! ## Dispatcher queue (frontend/lib/gemini-client.ts) -/

inductive Priority
  | low
  | normal
  | high
deriving DecidableEq

/-- The priorityOrder table of the comparator in sendConsultationRequest. -/
def priorityOrder : Priority → Nat
  | Priority.high => 3
  | Priority.normal => 2
  | Priority.low => 1

/-- A queue item; requestId stands for the request with its resolve/reject
callbacks, which the embedding does not inspect. -/
structure QueueItem where
  requestId : Nat
  timestamp : Nat
  priority : Priority
deriving DecidableEq

/-- The order imposed by the comparator of sendConsultationRequest: higher
priority first, then smaller enqueue timestamp first. -/
def queueLE (a b : QueueItem) : Prop :=
  priorityOrder b.priority < priorityOrder a.priority ∨
    (priorityOrder a.priority = priorityOrder b.priority ∧ a.timestamp ≤ b.timestamp)

instance : DecidableRel queueLE := fun a b => by
  unfold queueLE
  exact inferInstance

instance : IsTotal QueueItem queueLE :=
  ⟨by intro a b; unfold queueLE; omega⟩

instance : IsTrans QueueItem queueLE :=
  ⟨by intro a b c; unfold queueLE; omega⟩

/-- sendConsultationRequest: push the new item and sort the queue with the
priority/timestamp comparator.  Array.prototype.sort is a stable sort
(ECMAScript 2019), and the stable sort of a list by a total preorder is
exactly its insertion sort. -/
def enqueue (q : List QueueItem) (i : QueueItem) : List QueueItem :=
  (q ++ [i]).insertionSort queueLE

/-- The head removal performed by the processing loop
(this.requestQueue.shift() in startQueueProcessor). -/
def dequeue (q : List QueueItem) : Option QueueItem × List QueueItem :=
  (q.head?, q.tail)

/-! ## Dispatcher retry loop (frontend/lib/gemini-client.ts) -/

structure RetryConfig where
  maxRetries : Nat
  baseRetryDelay : ℚ
  maxRetryDelay : ℚ
deriving DecidableEq

/-- The GeminiAPIClient constructor defaults relevant to the retry loop. -/
def defaultRetryConfig : RetryConfig :=
  { maxRetries := 3, baseRetryDelay := 1000, maxRetryDelay := 10000 }

/-- calculateRetryDelay: exponential backoff plus a random jitter of up to a
tenth of the exponential delay, capped at maxRetryDelay.  jitterRand models
the Math.random() draw from the unit interval. -/
def calculateRetryDelay (cfg : RetryConfig) (retryCount : Nat) (jitterRand : ℚ) : ℚ :=
  min (cfg.baseRetryDelay * 2 ^ (retryCount - 1) +
        jitterRand * mkRat 1 10 * (cfg.baseRetryDelay * 2 ^ (retryCount - 1)))
    cfg.maxRetryDelay

/-- The classification of a thrown error by isRateLimitError and
isAuthenticationError; a rate-limit error optionally carries the
server-advertised retry-after delay in milliseconds (handleRateLimit). -/
inductive GeminiError
  | rateLimit (retryAfter : Option Nat)
  | auth
  | transient
deriving DecidableEq

/-- One execution of the try block of processConsultationRequest: a
successful generation, or a thrown error of some classification (timeout
and initialization errors count as transient). -/
inductive AttemptOutcome
  | ok
  | err (e : GeminiError)
deriving DecidableEq

/-- handleRateLimit: the advertised retry-after if present, else the default
one-minute cool-down. -/
def cooldown : Option Nat → Nat
  | some ms => ms
  | none => 60000

/-- The observable outcome of the retry loop: the returned success flag and
retry count, the last stored error, the sleeps performed in order, and how
many attempts were executed. -/
structure LoopResult where
  success : Bool
  retryCount : Nat
  lastError : Option GeminiError
  waits : List ℚ
  attemptsUsed : Nat
deriving DecidableEq

/-- The while loop of processConsultationRequest over a script of attempt
outcomes (one script entry per execution of the try block), from a given
retryCount, stored lastError and count of attempts already executed.  rand
gives the Math.random() draw used by the backoff computed after the n-th
attempt.  The loop exits when retryCount exceeds maxRetries, on success, or
on an authentication error (break, no retry); a rate-limit failure stores
the error, leaves the counter at its old value (increment then decrement)
and sleeps the cool-down before the next attempt; any other failure keeps
the increment and, when another round is allowed, sleeps the exponential
backoff.  An exhausted script ends the run with the loop still willing to
retry. -/
def processRetryLoop (cfg : RetryConfig) (rand : Nat → ℚ) :
    List AttemptOutcome → Nat → Option GeminiError → Nat → LoopResult
  | script, retryCount, lastError, used =>
    if cfg.maxRetries < retryCount then
      { success := false, retryCount := retryCount, lastError := lastError,
        waits := [], attemptsUsed := used }
    else
      match script with
      | [] =>
        { success := false, retryCount := retryCount, lastError := lastError,
          waits := [], attemptsUsed := used }
      | AttemptOutcome.ok :: _ =>
        { success := true, retryCount := retryCount, lastError := lastError,
          waits := [], attemptsUsed := used + 1 }
      | AttemptOutcome.err (GeminiError.rateLimit ra) :: rest =>
        let r := processRetryLoop cfg rand rest retryCount
          (some (GeminiError.rateLimit ra)) (used + 1)
        { r with waits := ((cooldown ra : ℚ)) :: r.waits }
      | AttemptOutcome.err GeminiError.auth :: _ =>
        { success := false, retryCount := retryCount + 1,
          lastError := some GeminiError.auth, waits := [], attemptsUsed := used + 1 }
      | AttemptOutcome.err GeminiError.transient :: rest =>
        if retryCount + 1 ≤ cfg.maxRetries then
          let r := processRetryLoop cfg rand rest (retryCount + 1)
            (some GeminiError.transient) (used + 1)
          { r with waits := calculateRetryDelay cfg (retryCount + 1) (rand used) :: r.waits }
        else
          processRetryLoop cfg rand rest (retryCount + 1) (some GeminiError.transient) (used + 1)

/-! ## Helper lemmas about the string model -/

theorem strContains_infix {hay needle : String} (h : strContains hay needle = true) :
    needle.data <:+: hay.data := by
  unfold strContains at h
  rw [List.any_eq_true] at h
  obtain ⟨t, ht, hp⟩ := h
  exact (List.isPrefixOf_iff_prefix.mp hp).isInfix.trans
    ((List.mem_tails t hay.data).mp ht).isInfix

theorem ws_lowerChar {c : Char} (h : isWs c = true) : lowerChar c = c := by
  simp only [isWs, Bool.or_eq_true, beq_iff_eq] at h
  rcases h with ((h | h) | h) | h <;> subst h <;> decide

theorem hasNonWs_of_mem_lower {s : String} {c : Char}
    (hc : c ∈ (lowerStr s).data) (hcw : isWs c = false) : hasNonWs s = true := by
  unfold lowerStr at hc
  obtain ⟨a, ha, hla⟩ := List.mem_map.mp hc
  unfold hasNonWs
  rw [List.any_eq_true]
  refine ⟨a, ha, ?_⟩
  cases hwa : isWs a with
  | false => simp
  | true =>
      rw [ws_lowerChar hwa] at hla
      subst hla
      rw [hwa] at hcw
      exact absurd hcw (by decide)

/-- A symptom text that contains one of the systemic-symptom keywords (after
lowercasing) is non-blank, so the guard of the symptom block passes. -/
theorem hasNonWs_of_systemic {s : String}
    (h : systemicSymptoms.any (fun kw => strContains (lowerStr s) kw) = true) :
    hasNonWs s = true := by
  rw [List.any_eq_true] at h
  obtain ⟨kw, hkw, hc⟩ := h
  have hinf := strContains_infix hc
  have hsub := hinf.subset
  simp only [systemicSymptoms, List.mem_cons, List.not_mem_nil, or_false] at hkw
  rcases hkw with h1 | h1 | h1 | h1 | h1 <;> subst h1
  · exact hasNonWs_of_mem_lower (hsub (show ('f' : Char) ∈ "fever".data by decide))
      (by decide)
  · exact hasNonWs_of_mem_lower (hsub (show ('f' : Char) ∈ "fatigue".data by decide))
      (by decide)
  · exact hasNonWs_of_mem_lower (hsub (show ('w' : Char) ∈ "weight loss".data by decide))
      (by decide)
  · exact hasNonWs_of_mem_lower (hsub (show ('n' : Char) ∈ "night sweats".data by decide))
      (by decide)
  · exact hasNonWs_of_mem_lower (hsub (show ('s' : Char) ∈ "swollen lymph".data by decide))
      (by decide)

/-! ## Step lemmas about assessHighRisk -/

theorem analyzeSymptomRisk_systemic {s : String}
    (h : systemicSymptoms.any (fun kw => strContains (lowerStr s) kw) = true) :
    (analyzeSymptomRisk s).hasUrgentSymptoms = true ∧
      (analyzeSymptomRisk s).requiresImmediate = true := by
  unfold analyzeSymptomRisk
  simp only [h]
  simp

theorem primaryMalignantStep_highRisk {p : DetectedCondition} {st : AssessState}
    (h : isHighRiskCondition (lowerStr p.condition) = true) :
    (primaryMalignantStep p st).urgencyLevel = Urgency.immediate ∧
      (primaryMalignantStep p st).isHighRisk = true := by
  unfold primaryMalignantStep
  rw [if_pos h]
  exact ⟨rfl, rfl⟩

theorem primaryAttentionStep_locked {p : DetectedCondition} {st : AssessState}
    (h : st.urgencyLevel = Urgency.immediate ∧ st.isHighRisk = true) :
    (primaryAttentionStep p st).urgencyLevel = Urgency.immediate ∧
      (primaryAttentionStep p st).isHighRisk = true := by
  unfold primaryAttentionStep
  split <;> simp_all

theorem primarySeverityStep_locked {p : DetectedCondition} {st : AssessState}
    (h : st.urgencyLevel = Urgency.immediate ∧ st.isHighRisk = true) :
    (primarySeverityStep p st).urgencyLevel = Urgency.immediate ∧
      (primarySeverityStep p st).isHighRisk = true := by
  unfold primarySeverityStep
  split <;> simp_all

theorem primaryConfidenceStep_locked {p : DetectedCondition} {st : AssessState}
    (h : st.urgencyLevel = Urgency.immediate ∧ st.isHighRisk = true) :
    (primaryConfidenceStep p st).urgencyLevel = Urgency.immediate ∧
      (primaryConfidenceStep p st).isHighRisk = true := by
  unfold primaryConfidenceStep
  split <;> simp_all

theorem checkPrimaryPrediction_highRisk {p : DetectedCondition}
    {rest : List DetectedCondition} {st : AssessState}
    (h : isHighRiskCondition (lowerStr p.condition) = true) :
    (checkPrimaryPrediction (p :: rest) st).urgencyLevel = Urgency.immediate ∧
      (checkPrimaryPrediction (p :: rest) st).isHighRisk = true := by
  unfold checkPrimaryPrediction
  exact primaryConfidenceStep_locked
    (primarySeverityStep_locked
      (primaryAttentionStep_locked (primaryMalignantStep_highRisk h)))

theorem checkSymptoms_locked {s : String} {st : AssessState}
    (h : st.urgencyLevel = Urgency.immediate ∧ st.isHighRisk = true) :
    (checkSymptoms s st).urgencyLevel = Urgency.immediate ∧
      (checkSymptoms s st).isHighRisk = true := by
  unfold checkSymptoms
  split <;> [skip; exact h]
  split <;> [skip; exact h]
  split <;> simp_all

theorem checkOverallRisk_locked {r : AnalysisResult} {st : AssessState}
    (h : st.urgencyLevel = Urgency.immediate ∧ st.isHighRisk = true) :
    (checkOverallRisk r st).urgencyLevel = Urgency.immediate ∧
      (checkOverallRisk r st).isHighRisk = true := by
  unfold checkOverallRisk
  split <;> simp_all

theorem checkSymptoms_systemic {s : String} {st : AssessState}
    (h : systemicSymptoms.any (fun kw => strContains (lowerStr s) kw) = true) :
    (checkSymptoms s st).urgencyLevel = Urgency.urgent ∨
      (checkSymptoms s st).urgencyLevel = Urgency.immediate := by
  obtain ⟨h1, h2⟩ := analyzeSymptomRisk_systemic h
  unfold checkSymptoms
  rw [if_pos (hasNonWs_of_systemic h), if_pos h1]
  by_cases hu : st.urgencyLevel = Urgency.immediate
  · rw [if_neg (by simp [hu])]
    exact Or.inr hu
  · rw [if_pos ⟨h2, hu⟩]
    exact Or.inl rfl

theorem checkOverallRisk_keeps_high {r : AnalysisResult} {st : AssessState}
    (h : st.urgencyLevel = Urgency.urgent ∨ st.urgencyLevel = Urgency.immediate) :
    (checkOverallRisk r st).urgencyLevel = Urgency.urgent ∨
      (checkOverallRisk r st).urgencyLevel = Urgency.immediate := by
  unfold checkOverallRisk
  rcases h with h | h <;> split <;> simp_all

theorem primaryMalignantStep_inv {p : DetectedCondition} {st : AssessState}
    (h : st.urgencyLevel = Urgency.immediate → st.isHighRisk = true) :
    (primaryMalignantStep p st).urgencyLevel = Urgency.immediate →
      (primaryMalignantStep p st).isHighRisk = true := by
  unfold primaryMalignantStep
  split <;> simp_all

theorem primaryAttentionStep_inv {p : DetectedCondition} {st : AssessState}
    (h : st.urgencyLevel = Urgency.immediate → st.isHighRisk = true) :
    (primaryAttentionStep p st).urgencyLevel = Urgency.immediate →
      (primaryAttentionStep p st).isHighRisk = true := by
  unfold primaryAttentionStep
  split <;> [skip; exact h]
  intro hx
  simp only at hx ⊢
  split at hx <;> simp_all

theorem primarySeverityStep_inv {p : DetectedCondition} {st : AssessState}
    (h : st.urgencyLevel = Urgency.immediate → st.isHighRisk = true) :
    (primarySeverityStep p st).urgencyLevel = Urgency.immediate →
      (primarySeverityStep p st).isHighRisk = true := by
  unfold primarySeverityStep
  split <;> [skip; exact h]
  intro hx
  simp only at hx ⊢
  split at hx <;> simp_all

theorem primaryConfidenceStep_inv {p : DetectedCondition} {st : AssessState}
    (h : st.urgencyLevel = Urgency.immediate → st.isHighRisk = true) :
    (primaryConfidenceStep p st).urgencyLevel = Urgency.immediate →
      (primaryConfidenceStep p st).isHighRisk = true := by
  unfold primaryConfidenceStep
  split <;> [skip; exact h]
  intro hx
  simp only at hx ⊢
  split at hx <;> simp_all

theorem checkPrimaryPrediction_inv {preds : List DetectedCondition} {st : AssessState}
    (h : st.urgencyLevel = Urgency.immediate → st.isHighRisk = true) :
    (checkPrimaryPrediction preds st).urgencyLevel = Urgency.immediate →
      (checkPrimaryPrediction preds st).isHighRisk = true := by
  unfold checkPrimaryPrediction
  match preds with
  | [] => exact h
  | primary :: rest =>
      exact primaryConfidenceStep_inv
        (primarySeverityStep_inv (primaryAttentionStep_inv (primaryMalignantStep_inv h)))

theorem checkSymptoms_inv {s : String} {st : AssessState}
    (h : st.urgencyLevel = Urgency.immediate → st.isHighRisk = true) :
    (checkSymptoms s st).urgencyLevel = Urgency.immediate →
      (checkSymptoms s st).isHighRisk = true := by
  unfold checkSymptoms
  split <;> [skip; exact h]
  split <;> [skip; exact h]
  split <;> simp_all

theorem checkOverallRisk_inv {r : AnalysisResult} {st : AssessState}
    (h : st.urgencyLevel = Urgency.immediate → st.isHighRisk = true) :
    (checkOverallRisk r st).urgencyLevel = Urgency.immediate →
      (checkOverallRisk r st).isHighRisk = true := by
  unfold checkOverallRisk
  split <;> simp_all

/-! ## Claim theorems: risk assessor -/

/-- C1: for every non-empty predictions list whose top prediction name
contains (case-insensitively) one of the fixed high-risk terms,
assessHighRisk returns urgencyLevel immediate and isHighRisk true regardless
of symptoms and riskLevel, and the emergency contacts are non-empty and
include the Emergency Services contact with phone 911. -/
theorem assessHighRisk_highRiskName_immediate (p : DetectedCondition)
    (rest : List DetectedCondition) (symptoms : String) (r : AnalysisResult)
    (h : isHighRiskCondition (lowerStr p.condition) = true) :
    (assessHighRisk (p :: rest) symptoms r).urgencyLevel = Urgency.immediate ∧
    (assessHighRisk (p :: rest) symptoms r).isHighRisk = true ∧
    (assessHighRisk (p :: rest) symptoms r).emergencyContacts ≠ [] ∧
    ({ type := ContactType.emergency, name := "Emergency Services", phone := "911",
       description := "For immediate life-threatening emergencies" } : EmergencyContact) ∈
      (assessHighRisk (p :: rest) symptoms r).emergencyContacts := by
  have hfin := checkOverallRisk_locked (r := r)
    (checkSymptoms_locked (s := symptoms)
      (@checkPrimaryPrediction_highRisk p rest
        { isHighRisk := false, urgencyLevel := Urgency.routine, riskFactors := [] } h))
  simp only [assessHighRisk]
  refine ⟨hfin.1, hfin.2, ?_, ?_⟩ <;> rw [hfin.1] <;> decide

/-- Witness for C1 at the spec scenario (Melanoma, confidence 0.8, severe,
empty symptoms). -/
theorem assessHighRisk_highRiskName_immediate_witness :
    isHighRiskCondition (lowerStr melanomaPred.condition) = true ∧
    ((assessHighRisk [melanomaPred] "" melanomaResult).urgencyLevel = Urgency.immediate ∧
     (assessHighRisk [melanomaPred] "" melanomaResult).isHighRisk = true ∧
     (assessHighRisk [melanomaPred] "" melanomaResult).emergencyContacts ≠ [] ∧
     ({ type := ContactType.emergency, name := "Emergency Services", phone := "911",
        description := "For immediate life-threatening emergencies" } : EmergencyContact) ∈
       (assessHighRisk [melanomaPred] "" melanomaResult).emergencyContacts) :=
  ⟨by decide,
   assessHighRisk_highRiskName_immediate melanomaPred [] "" melanomaResult (by decide)⟩

/-- C2 as stated is false: the systemic-symptom keyword "fever" in the
symptom text yields urgencyLevel urgent, not immediate (the assignment at
high-risk-handler.ts line 145 is to urgent). -/
theorem assessHighRisk_systemic_not_immediate_counterexample :
    systemicSymptoms.any (fun kw => strContains (lowerStr "fever") kw) = true ∧
    (assessHighRisk [acnePred] "fever" acneResult).urgencyLevel = Urgency.urgent ∧
    (assessHighRisk [acnePred] "fever" acneResult).urgencyLevel ≠ Urgency.immediate := by
  decide

/-- C2 (amended): a systemic-symptom keyword in the symptom text forces the
returned urgencyLevel to at least urgent: it is urgent unless an earlier
check already made it immediate. -/
theorem assessHighRisk_systemic_at_least_urgent (preds : List DetectedCondition)
    (symptoms : String) (r : AnalysisResult)
    (h : systemicSymptoms.any (fun kw => strContains (lowerStr symptoms) kw) = true) :
    (assessHighRisk preds symptoms r).urgencyLevel = Urgency.urgent ∨
      (assessHighRisk preds symptoms r).urgencyLevel = Urgency.immediate := by
  simp only [assessHighRisk]
  exact checkOverallRisk_keeps_high (checkSymptoms_systemic h)

/-- Witness for the amended C2 at symptoms "fever" on a benign low-risk
prediction. -/
theorem assessHighRisk_systemic_at_least_urgent_witness :
    systemicSymptoms.any (fun kw => strContains (lowerStr "fever") kw) = true ∧
    ((assessHighRisk [acnePred] "fever" acneResult).urgencyLevel = Urgency.urgent ∨
      (assessHighRisk [acnePred] "fever" acneResult).urgencyLevel = Urgency.immediate) :=
  ⟨by decide, assessHighRisk_systemic_at_least_urgent [acnePred] "fever" acneResult (by decide)⟩

/-- C5: emergency-contact selection is a total function of the final urgency
level: immediate yields all three contact types, urgent the dermatologist and
urgent-care contacts, moderate the dermatologist only, routine none. -/
theorem getRelevantEmergencyContacts_total :
    ((getRelevantEmergencyContacts Urgency.immediate).map (fun c => c.type) =
      [ContactType.emergency, ContactType.dermatologist, ContactType.urgent_care]) ∧
    ((getRelevantEmergencyContacts Urgency.urgent).map (fun c => c.type) =
      [ContactType.dermatologist, ContactType.urgent_care]) ∧
    ((getRelevantEmergencyContacts Urgency.moderate).map (fun c => c.type) =
      [ContactType.dermatologist]) ∧
    getRelevantEmergencyContacts Urgency.routine = [] := by
  decide

/-- C10: whenever assessHighRisk returns urgencyLevel immediate it also
returns isHighRisk true; the converse fails (second conjunct: a
symptom-driven escalation sets isHighRisk with urgencyLevel urgent). -/
theorem assessHighRisk_immediate_implies_highRisk :
    (∀ (preds : List DetectedCondition) (symptoms : String) (r : AnalysisResult),
      (assessHighRisk preds symptoms r).urgencyLevel = Urgency.immediate →
        (assessHighRisk preds symptoms r).isHighRisk = true) ∧
    ((assessHighRisk [acnePred] "fever" acneResult).isHighRisk = true ∧
      (assessHighRisk [acnePred] "fever" acneResult).urgencyLevel ≠ Urgency.immediate) := by
  constructor
  · intro preds symptoms r
    simp only [assessHighRisk]
    exact checkOverallRisk_inv (checkSymptoms_inv (checkPrimaryPrediction_inv (by decide)))
  · decide

/-- Witness for C10 at the Melanoma scenario, where the urgency is in fact
immediate. -/
theorem assessHighRisk_immediate_implies_highRisk_witness :
    (assessHighRisk [melanomaPred] "" melanomaResult).urgencyLevel = Urgency.immediate ∧
    (assessHighRisk [melanomaPred] "" melanomaResult).isHighRisk = true :=
  ⟨by decide,
   assessHighRisk_immediate_implies_highRisk.1 [melanomaPred] "" melanomaResult (by decide)⟩

/-! ## Claim theorems: offline fallback engine -/

theorem offlineDisclaimer_nonempty : getOfflineMedicalDisclaimer ≠ "" := by
  decide

/-- C6: for every well-formed AnalysisResult (non-empty predictions) the
offline engine returns a ConsultationResponse whose medicalDisclaimer is
non-empty and whose metadata has fallbackUsed and safetyValidated set; the
embedded function is pure, reflecting that the source makes no external
call. -/
theorem generateOfflineConsultation_wellFormed (r : AnalysisResult) (symptoms : String)
    (h : r.predictions ≠ []) :
    ∃ resp, generateOfflineConsultation defaultOfflineConfig r symptoms = some resp ∧
      resp.consultation.medicalDisclaimer ≠ "" ∧
      resp.metadata.fallbackUsed = true ∧
      resp.metadata.safetyValidated = true := by
  obtain ⟨top, rest, hp⟩ := List.exists_cons_of_ne_nil h
  have hval : generateOfflineConsultation defaultOfflineConfig r symptoms =
      some
        { consultation :=
            { conditionAssessment :=
                generateOfflineAssessment top r (processSymptoms symptoms)
              symptomCorrelation :=
                generateOfflineSymptomCorrelation symptoms top (processSymptoms symptoms)
              recommendations :=
                generateOfflineRecommendations defaultOfflineConfig top symptoms
                  (assessOfflineRiskLevel top r)
              urgencyLevel :=
                determineOfflineUrgencyLevel top (assessOfflineRiskLevel top r)
              educationalInfo :=
                generateOfflineEducationalInfo defaultOfflineConfig top r
              medicalDisclaimer := getOfflineMedicalDisclaimer }
          metadata :=
            { modelUsed := "Offline Consultation Engine v2.0"
              processingTime := 0
              confidenceScore := r.overallConfidence
              fallbackUsed := true
              safetyValidated := true }
          emergencyContacts :=
            if defaultOfflineConfig.includeEmergencyContacts = true then
              some (getOfflineEmergencyContacts (assessOfflineRiskLevel top r))
            else none } := by
    unfold generateOfflineConsultation
    rw [hp]
  exact ⟨_, hval, offlineDisclaimer_nonempty, rfl, rfl⟩

/-- Witness for C6 at the Melanoma analysis result. -/
theorem generateOfflineConsultation_wellFormed_witness :
    melanomaResult.predictions ≠ [] ∧
    (∃ resp, generateOfflineConsultation defaultOfflineConfig melanomaResult "" = some resp ∧
      resp.consultation.medicalDisclaimer ≠ "" ∧
      resp.metadata.fallbackUsed = true ∧
      resp.metadata.safetyValidated = true) :=
  ⟨by decide, generateOfflineConsultation_wellFormed melanomaResult "" (by decide)⟩

/-- C3 fails on the code: for an AnalysisResult with an empty predictions
list the catch block calls generateMinimalConsultation, which itself reads
predictions[0].condition and throws a TypeError that nothing catches, so
generateOfflineConsultation throws (result none) instead of returning the
minimal consultation the spec promises. -/
theorem generateOfflineConsultation_empty_predictions_throws :
    generateOfflineConsultation defaultOfflineConfig emptyAnalysisResult "" = none ∧
    generateMinimalConsultation emptyAnalysisResult = none :=
  ⟨rfl, rfl⟩

/-! ## Claim theorems: response validator and sanitizer -/

theorem isEmpty_false_of_mem {α : Type} {a : α} {l : List α} (h : a ∈ l) :
    l.isEmpty = false := by
  cases l with
  | nil => cases h
  | cons b t => rfl

/-- C4: any text containing (case-insensitively) a phrase from the
prohibited-term set is reported invalid by validateResponse with an issue
naming that phrase; for the scenario input the validator reports
valid false and the sanitized output no longer contains "i diagnose" or
"prescription" in any casing. -/
theorem prohibited_rejected_and_sanitized :
    (∀ (text term : String), term ∈ prohibitedTerms →
      strContains (lowerStr text) term = true →
      (validateResponse text).valid = false ∧
      ("Contains prohibited medical language: \"" ++ term ++ "\"") ∈
        (validateResponse text).issues) ∧
    (validateResponse c4ExampleText).valid = false ∧
    strContains (lowerStr (sanitizeContent c4ExampleText)) "i diagnose" = false ∧
    strContains (lowerStr (sanitizeContent c4ExampleText)) "prescription" = false := by
  refine ⟨?_, by decide, by decide, by decide⟩
  intro text term hterm hc
  have hviol : ("Contains prohibited medical language: \"" ++ term ++ "\"") ∈
      prohibitedViolations text :=
    List.mem_map.mpr ⟨term, List.mem_filter.mpr ⟨hterm, hc⟩, rfl⟩
  have hvfalse : (checkForProhibitedContent text).valid = false :=
    isEmpty_false_of_mem hviol
  have hmem : ("Contains prohibited medical language: \"" ++ term ++ "\"") ∈
      validateIssues text := by
    unfold validateIssues
    rw [if_pos hvfalse]
    exact List.mem_append_left _ (List.mem_append_left _ hviol)
  exact ⟨isEmpty_false_of_mem hmem, hmem⟩

/-- Witness for the universal part of C4, at the scenario text and the term
"prescription". -/
theorem prohibited_rejected_and_sanitized_witness :
    ("prescription" ∈ prohibitedTerms ∧
      strContains (lowerStr c4ExampleText) "prescription" = true) ∧
    ((validateResponse c4ExampleText).valid = false ∧
      ("Contains prohibited medical language: \"" ++ "prescription" ++ "\"") ∈
        (validateResponse c4ExampleText).issues) :=
  ⟨⟨by decide, by decide⟩,
   prohibited_rejected_and_sanitized.1 c4ExampleText "prescription" (by decide) (by decide)⟩

/-- C7: the disclaimer check accepts a text iff at least four terms of the
disclaimer vocabulary and at least one of the three critical phrases occur
(case-insensitively); every failing text yields the disclaimer safety issue
in validateResponse, independently of the prohibited-content check. -/
theorem ensureDisclaimers_iff_reported (text : String) :
    (ensureDisclaimersPresent text = true ↔
      (4 ≤ (requiredDisclaimerTerms.filter
          (fun t => strContains (lowerStr text) t)).length ∧
        ∃ p ∈ criticalDisclaimerPhrases, strContains (lowerStr text) p = true)) ∧
    (ensureDisclaimersPresent text = false →
      (validateResponse text).valid = false ∧
      "Required medical disclaimers are missing or insufficient" ∈
        (validateResponse text).issues) := by
  constructor
  · unfold ensureDisclaimersPresent
    simp only [Bool.and_eq_true, decide_eq_true_eq, List.any_eq_true]
  · intro h
    have hmem : "Required medical disclaimers are missing or insufficient" ∈
        validateIssues text := by
      unfold validateIssues
      rw [if_pos h]
      exact List.mem_append_left _ (List.mem_append_right _ (by simp))
    exact ⟨isEmpty_false_of_mem hmem, hmem⟩

/-- Witness for C7 on a text with no disclaimers at all (and no prohibited
content, showing the check is independent). -/
theorem ensureDisclaimers_iff_reported_witness :
    ensureDisclaimersPresent "hello" = false ∧
    (validateResponse "hello").valid = false ∧
    "Required medical disclaimers are missing or insufficient" ∈
      (validateResponse "hello").issues :=
  ⟨by decide, ((ensureDisclaimers_iff_reported "hello").2 (by decide)).1,
   ((ensureDisclaimers_iff_reported "hello").2 (by decide)).2⟩

/-! ## Claim theorems: dispatcher queue and retry loop -/

theorem sorted_foldl_enqueue (items : List QueueItem) :
    ∀ q : List QueueItem, List.Sorted queueLE q →
      List.Sorted queueLE (items.foldl enqueue q) := by
  induction items with
  | nil => intro q hq; exact hq
  | cons i rest ih =>
      intro q _
      rw [List.foldl_cons]
      exact ih _ (List.sorted_insertionSort queueLE _)

theorem enqueue_perm (q : List QueueItem) (i : QueueItem) :
    (enqueue q i).Perm (q ++ [i]) :=
  List.perm_insertionSort queueLE _

theorem high_dequeued_first (n1 n2 hi : QueueItem)
    (h1 : n1.priority = Priority.normal) (h2 : n2.priority = Priority.normal)
    (h3 : hi.priority = Priority.high) :
    (dequeue (enqueue (enqueue (enqueue [] n1) n2) hi)).1 = some hi := by
  have p1 : (enqueue [] n1).Perm [n1] := enqueue_perm [] n1
  have p2 : (enqueue (enqueue [] n1) n2).Perm [n1, n2] :=
    (enqueue_perm _ n2).trans (p1.append_right [n2])
  have p3 : (enqueue (enqueue (enqueue [] n1) n2) hi).Perm [n1, n2, hi] :=
    (enqueue_perm _ hi).trans (p2.append_right [hi])
  have hs : List.Sorted queueLE (enqueue (enqueue (enqueue [] n1) n2) hi) :=
    List.sorted_insertionSort queueLE _
  cases hq : enqueue (enqueue (enqueue [] n1) n2) hi with
  | nil =>
      exfalso
      have := p3.symm.mem_iff.mp (show hi ∈ [n1, n2, hi] by simp)
      rw [hq] at this
      cases this
  | cons h t =>
      rw [hq] at p3 hs
      have hmemh : h ∈ [n1, n2, hi] := p3.subset (List.mem_cons_self h t)
      have hmemhi : hi ∈ h :: t := p3.symm.subset (show hi ∈ [n1, n2, hi] by simp)
      have key : ∀ x : QueueItem, h = x → x.priority = Priority.normal → False := by
        intro x hx hxp
        rcases List.mem_cons.mp hmemhi with he | ht
        · rw [he, hx, hxp] at h3
          simp at h3
        · have hle : queueLE h hi := List.rel_of_sorted_cons hs hi ht
          rw [hx] at hle
          simp [queueLE, priorityOrder, hxp, h3] at hle
      show some h = some hi
      simp only [List.mem_cons, List.not_mem_nil, or_false] at hmemh
      rcases hmemh with hh | hh | hh
      · exact absurd (key n1 hh h1) not_false
      · exact absurd (key n2 hh h2) not_false
      · rw [hh]

theorem foldl_enqueue_arrival_order (items : List QueueItem)
    (hall : ∀ i ∈ items, i.priority = Priority.normal)
    (hts : items.Pairwise (fun a b => a.timestamp ≤ b.timestamp)) :
    items.foldl enqueue [] = items := by
  induction items using List.reverseRecOn with
  | nil => rfl
  | append_singleton l z ih =>
      rw [List.foldl_append, List.foldl_cons, List.foldl_nil]
      have hl : ∀ i ∈ l, i.priority = Priority.normal :=
        fun i hi => hall i (List.mem_append_left _ hi)
      have hz : z.priority = Priority.normal :=
        hall z (List.mem_append_right _ (by simp))
      obtain ⟨hpl, _, hcross⟩ := List.pairwise_append.mp hts
      rw [ih hl hpl]
      unfold enqueue
      apply List.Sorted.insertionSort_eq
      rw [List.Sorted, List.pairwise_append]
      refine ⟨?_, by simp, ?_⟩
      · exact hpl.imp_of_mem (fun hx hy hxy =>
          Or.inr ⟨by rw [hl _ hx, hl _ hy], hxy⟩)
      · intro x hx y hy
        simp only [List.mem_singleton] at hy
        subst hy
        exact Or.inr ⟨by rw [hl _ hx, hz], hcross x hx _ (by simp)⟩

/-- C8: after every sequence of enqueues the request queue is sorted by the
priority/timestamp comparator, and the processing loop removes only the
head (the first pair component of dequeue); in particular a high-priority
item enqueued after two normal-priority items is dequeued next, and a run
of equal-priority requests arriving in timestamp order is served in arrival
order. -/
theorem queue_priority_order :
    (∀ items : List QueueItem, List.Sorted queueLE (items.foldl enqueue [])) ∧
    (∀ n1 n2 hi : QueueItem, n1.priority = Priority.normal →
      n2.priority = Priority.normal → hi.priority = Priority.high →
      (dequeue (enqueue (enqueue (enqueue [] n1) n2) hi)).1 = some hi) ∧
    (∀ items : List QueueItem, (∀ i ∈ items, i.priority = Priority.normal) →
      items.Pairwise (fun a b => a.timestamp ≤ b.timestamp) →
      items.foldl enqueue [] = items) :=
  ⟨fun items => sorted_foldl_enqueue items [] List.Pairwise.nil,
   high_dequeued_first,
   foldl_enqueue_arrival_order⟩

/-- Witness for C8 at two concrete normal-priority items followed by a
high-priority item. -/
theorem queue_priority_order_witness :
    (dequeue (enqueue (enqueue (enqueue []
        ({ requestId := 1, timestamp := 10, priority := Priority.normal } : QueueItem))
        { requestId := 2, timestamp := 20, priority := Priority.normal })
        { requestId := 3, timestamp := 30, priority := Priority.high })).1 =
      some { requestId := 3, timestamp := 30, priority := Priority.high } :=
  queue_priority_order.2.1 _ _ _ rfl rfl rfl

theorem transient_attempts_bound (cfg : RetryConfig) (rand : Nat → ℚ) :
    ∀ (s : List AttemptOutcome) (rc : Nat) (le : Option GeminiError) (used : Nat),
      (∀ a ∈ s, a = AttemptOutcome.err GeminiError.transient) →
      (processRetryLoop cfg rand s rc le used).attemptsUsed ≤
        used + (cfg.maxRetries + 1 - rc) := by
  intro s
  induction s with
  | nil =>
      intro rc le used _
      rw [processRetryLoop]
      split <;> simp
  | cons a rest ih =>
      intro rc le used hall
      have ha : a = AttemptOutcome.err GeminiError.transient :=
        hall a (List.mem_cons_self a rest)
      subst ha
      rw [processRetryLoop]
      split
      · simp
      · rename_i hrc
        have hrest : ∀ a ∈ rest, a = AttemptOutcome.err GeminiError.transient :=
          fun a hx => hall a (List.mem_cons_of_mem _ hx)
        simp only []
        split
        · have := ih (rc + 1) (some GeminiError.transient) (used + 1) hrest
          simp only [] at this ⊢
          omega
        · have := ih (rc + 1) (some GeminiError.transient) (used + 1) hrest
          omega

theorem rateLimit_step (cfg : RetryConfig) (rand : Nat → ℚ) (ra : Option Nat)
    (s : List AttemptOutcome) (rc : Nat) (le : Option GeminiError) (used : Nat)
    (h : rc ≤ cfg.maxRetries) :
    processRetryLoop cfg rand (AttemptOutcome.err (GeminiError.rateLimit ra) :: s) rc le used =
      { processRetryLoop cfg rand s rc (some (GeminiError.rateLimit ra)) (used + 1) with
        waits := ((cooldown ra : ℚ)) ::
          (processRetryLoop cfg rand s rc (some (GeminiError.rateLimit ra)) (used + 1)).waits } := by
  rw [processRetryLoop]
  rw [if_neg (by omega)]

theorem auth_step (cfg : RetryConfig) (rand : Nat → ℚ)
    (s : List AttemptOutcome) (rc : Nat) (le : Option GeminiError) (used : Nat)
    (h : rc ≤ cfg.maxRetries) :
    processRetryLoop cfg rand (AttemptOutcome.err GeminiError.auth :: s) rc le used =
      { success := false, retryCount := rc + 1, lastError := some GeminiError.auth,
        waits := [], attemptsUsed := used + 1 } := by
  rw [processRetryLoop]
  rw [if_neg (by omega)]

theorem transient_step_waits (cfg : RetryConfig) (rand : Nat → ℚ)
    (s : List AttemptOutcome) (rc : Nat) (le : Option GeminiError) (used : Nat)
    (h : rc < cfg.maxRetries) :
    (processRetryLoop cfg rand (AttemptOutcome.err GeminiError.transient :: s) rc le used).waits =
      calculateRetryDelay cfg (rc + 1) (rand used) ::
        (processRetryLoop cfg rand s (rc + 1) (some GeminiError.transient) (used + 1)).waits := by
  rw [processRetryLoop]
  rw [if_neg (by omega)]
  simp only []
  rw [if_pos (by omega)]

theorem delay_capped (cfg : RetryConfig) (rc : Nat) (j : ℚ) :
    calculateRetryDelay cfg rc j ≤ cfg.maxRetryDelay :=
  min_le_right _ _

/-- C9: a rate-limit-classified failure leaves the retry counter unchanged
and sleeps the advertised or default cool-down before the re-attempt; an
authentication-classified failure ends the loop at once with no retry and
no wait; a run of transient failures executes at most maxRetries + 1
attempts; the sleep after the k-th transient failure is the exponential
backoff with jitter, and every such delay is capped at maxRetryDelay. -/
theorem retry_loop_policy :
    (∀ (cfg : RetryConfig) (rand : Nat → ℚ) (ra : Option Nat)
        (s : List AttemptOutcome) (rc : Nat) (le : Option GeminiError) (used : Nat),
      rc ≤ cfg.maxRetries →
      processRetryLoop cfg rand (AttemptOutcome.err (GeminiError.rateLimit ra) :: s) rc le used =
        { processRetryLoop cfg rand s rc (some (GeminiError.rateLimit ra)) (used + 1) with
          waits := ((cooldown ra : ℚ)) ::
            (processRetryLoop cfg rand s rc (some (GeminiError.rateLimit ra)) (used + 1)).waits }) ∧
    (∀ (cfg : RetryConfig) (rand : Nat → ℚ) (s : List AttemptOutcome)
        (rc : Nat) (le : Option GeminiError) (used : Nat),
      rc ≤ cfg.maxRetries →
      processRetryLoop cfg rand (AttemptOutcome.err GeminiError.auth :: s) rc le used =
        { success := false, retryCount := rc + 1, lastError := some GeminiError.auth,
          waits := [], attemptsUsed := used + 1 }) ∧
    (∀ (cfg : RetryConfig) (rand : Nat → ℚ) (s : List AttemptOutcome),
      (∀ a ∈ s, a = AttemptOutcome.err GeminiError.transient) →
      (processRetryLoop cfg rand s 0 none 0).attemptsUsed ≤ cfg.maxRetries + 1) ∧
    (∀ (cfg : RetryConfig) (rand : Nat → ℚ) (s : List AttemptOutcome)
        (rc : Nat) (le : Option GeminiError) (used : Nat),
      rc < cfg.maxRetries →
      (processRetryLoop cfg rand (AttemptOutcome.err GeminiError.transient :: s) rc le used).waits =
        calculateRetryDelay cfg (rc + 1) (rand used) ::
          (processRetryLoop cfg rand s (rc + 1) (some GeminiError.transient) (used + 1)).waits) ∧
    (∀ (cfg : RetryConfig) (rc : Nat) (j : ℚ),
      calculateRetryDelay cfg rc j ≤ cfg.maxRetryDelay) :=
  ⟨rateLimit_step, auth_step,
   fun cfg rand s h =>
     le_trans (transient_attempts_bound cfg rand s 0 none 0 h) (by omega),
   transient_step_waits, delay_capped⟩

/-- Witness for C9: the auth-terminal conjunct at the default configuration
with a single authentication failure. -/
theorem retry_loop_policy_witness :
    (0 ≤ defaultRetryConfig.maxRetries) ∧
    processRetryLoop defaultRetryConfig (fun _ => 0)
        [AttemptOutcome.err GeminiError.auth] 0 none 0 =
      { success := false, retryCount := 1, lastError := some GeminiError.auth,
        waits := [], attemptsUsed := 1 } :=
  ⟨Nat.zero_le _,
   retry_loop_policy.2.1 defaultRetryConfig (fun _ => 0) [] 0 none 0 (Nat.zero_le _)⟩

end BioLens
